import Mathlib

/-!
Shallow embedding of the project-aster horizontal-curve solver
(`src/horizontal/mod.rs`) and sight-distance lookup (`src/sight_distance.rs`).

Rust `f64` arithmetic is idealised as `ℝ` (for the trigonometric curve
solver) and `ℚ` (for the table-lookup component, which only multiplies by
1.2); an `f64` NaN produced by `acos` outside `[-1, 1]` is modelled as
`Option.none`.  A Rust panic (from `.expect(..)` or an out-of-bounds
`Vec` index) is modelled as an explicit `panic` outcome, distinct from a
returned `Result::Err`.
-/

namespace Aster

/-! ### Sight-distance component (`src/sight_distance.rs`) -/

inductive SightType
  | Stopping
  | Passing
  | Decision
deriving DecidableEq

/-- The panic messages `calc_min_sight_distance` can die with: the
`.expect("design speed isn't in table.")` on the `HashMap` lookup, and the
implicit bounds-check panic of the `[0]` / `[1]` `Vec` index. -/
inductive PanicMsg
  | designSpeedNotInTable
  | indexOutOfBounds
deriving DecidableEq

/-- Outcome of running `calc_min_sight_distance`: either the `Ok` value the
Rust function returns, or a panic (the Rust function never returns `Err`). -/
inductive CalcOutcome
  | ok (d : ℚ)
  | panic (m : PanicMsg)
deriving DecidableEq

/-- A loaded sight-distance table: `HashMap<i32, Vec<f64>>`, modelled as an
association list from integer design speed to the row of distance columns. -/
abbrev SightTable : Type := List (Int × List ℚ)

/-- Rust `table.get(&design_speed).expect("design speed isn't in table.")[i]`:
panics when the speed is absent, panics again when the row is shorter than
`i + 1`, otherwise yields the stored entry. -/
def getEntry (table : SightTable) (design_speed : Int) (i : Nat) : CalcOutcome :=
  match List.lookup design_speed table with
  | none => .panic .designSpeedNotInTable
  | some row =>
    match row[i]? with
    | none => .panic .indexOutOfBounds
    | some d => .ok d

/-- Rust `calc_min_sight_distance` from `src/sight_distance.rs`: selects column 0
for `Stopping` and `Decision` and column 1 for `Passing`, then multiplies by
1.2 when `sustained_downgrade` is set (unconditionally on sight type). -/
def calc_min_sight_distance (table : SightTable) (design_speed : Int)
    (sight_type : SightType) (sustained_downgrade : Bool) : CalcOutcome :=
  let minimum_sight_distance : CalcOutcome :=
    match sight_type with
    | .Stopping => getEntry table design_speed 0
    | .Passing => getEntry table design_speed 1
    | .Decision => getEntry table design_speed 0
  match minimum_sight_distance with
  | .panic m => .panic m
  | .ok d => .ok (if sustained_downgrade then d * 1.2 else d)

/-- The column `calc_min_sight_distance` reads for each sight type. -/
def sightColumn : SightType → Nat
  | .Stopping => 0
  | .Passing => 1
  | .Decision => 0

/-! ### Horizontal-curve component (`src/horizontal/mod.rs`) -/

inductive HorizontalStationDefinition
  | PI
  | PC
  | PT
deriving DecidableEq

inductive HorizontalBuildDefinition
  | RadiusCurveAngle
  | RadiusTangent
deriving DecidableEq

/-- Rust `HorizontalStationDefinition::next` (UI cycling helper). -/
def HorizontalStationDefinition.next :
    HorizontalStationDefinition → HorizontalStationDefinition
  | .PC => .PI
  | .PI => .PT
  | .PT => .PC

/-- An angle held redundantly in radians and decimal degrees
(`crate::datatypes::Angle`). -/
structure Angle where
  radians : ℝ
  decimal_degrees : ℝ

/-- A station: linear position plus (placeholder) elevation
(`crate::datatypes::Station`). -/
structure Station where
  value : ℝ
  elevation : ℝ

structure HorizontalDimensions where
  radius : ℝ
  curve_length : ℝ
  tangent : ℝ
  long_chord : ℝ
  middle_ordinate : ℝ
  external : ℝ
  curve_length_100 : Angle
  curve_angle : Angle
  design_speed : ℝ
  /-- Value `none` models an `f64` NaN (from `acos` applied outside `[-1, 1]`). -/
  sight_distance : Option ℝ

structure HorizontalStations where
  pc : Station
  pi : Station
  pt : Station

structure HorizontalCurve where
  dimensions : HorizontalDimensions
  stations : HorizontalStations

/-- The error values `to_dimensions` / `to_stations` actually return
(`anyhow` errors in the source): a parse failure propagated by `?` from
`coerce_length` / `Angle::from` / `coerce_station_value`, or the explicit
`anyhow!("This method hasn't been implimented.")`. -/
inductive AsterError
  | parseError
  | methodNotImplemented
deriving DecidableEq

/-- Modelled from the spec: `coerce_length`, `coerce_speed`,
`coerce_station_value` and `Angle::from` live in `horizontal/calculate.rs`
and `datatypes`, which are not among the provided sources.  Per the spec
(§4.1, §4.2, §9) each coerces a raw input string to a typed value or fails
with a parse error; the input record therefore carries each field already
as the `Option` result of its parse (`none` = parse failure). -/
structure HorizontalData where
  input_station_method : HorizontalStationDefinition
  input_build_method : HorizontalBuildDefinition
  /-- result of `coerce_station_value(&self.input_station)` -/
  input_station : Option ℝ
  /-- result of `coerce_length(&self.input_radius)` -/
  input_radius : Option ℝ
  /-- result of `Angle::from(self.input_curve_angle.as_str())` -/
  input_curve_angle : Option Angle
  /-- result of `coerce_length(&self.input_m)` -/
  input_m : Option ℝ
  /-- result of `coerce_speed(&self.input_design_speed)` -/
  input_design_speed : Option ℝ
  input_sight_type : SightType
  sustained_downgrade : Bool

/-- Rust `f64::acos`: the real arccosine on `[-1, 1]`, NaN (`none`) outside. -/
noncomputable def acosF (x : ℝ) : Option ℝ :=
  if -1 ≤ x ∧ x ≤ 1 then some (Real.arccos x) else none

/-- Rust `HorizontalData::to_dimensions`.  Only the `RadiusCurveAngle` build
method is implemented; `RadiusTangent` falls to the catch-all
`Err(anyhow!("This method hasn't been implimented."))`. -/
noncomputable def HorizontalData.to_dimensions (self : HorizontalData) :
    Except AsterError HorizontalDimensions :=
  match self.input_build_method with
  | .RadiusCurveAngle =>
    match self.input_radius with
    | none => .error .parseError
    | some radius =>
      match self.input_curve_angle with
      | none => .error .parseError
      | some curve_angle =>
        let curve_length := radius * curve_angle.decimal_degrees * Real.pi / 180
        let tangent := radius * Real.tan (curve_angle.radians / 2)
        let external := radius * (1 / Real.cos (curve_angle.radians / 2) - 1)
        let middle_ordinate := radius * (1 - Real.cos (curve_angle.radians / 2))
        let long_chord := 2 * radius * Real.sin (curve_angle.radians / 2)
        let curve_length_100 : Angle :=
          { radians := 5729.6 / radius * Real.pi / 180
            decimal_degrees := 5729.6 / radius }
        let m := self.input_m.getD 0
        let design_speed := self.input_design_speed.getD 0
        let sight_distance :=
          (acosF ((radius - m) / radius)).map
            (fun a => radius / 28.65 * a * 180 / Real.pi)
        .ok { radius := radius
              curve_length := curve_length
              tangent := tangent
              long_chord := long_chord
              middle_ordinate := middle_ordinate
              external := external
              curve_length_100 := curve_length_100
              curve_angle := curve_angle
              design_speed := design_speed
              sight_distance := sight_distance }
  | .RadiusTangent => .error .methodNotImplemented

def pc_to_pi (sts : Station) (dim : HorizontalDimensions) : Station :=
  { value := sts.value + dim.tangent, elevation := 0 }

def pc_to_pt (sts : Station) (dim : HorizontalDimensions) : Station :=
  { value := sts.value + dim.curve_length, elevation := 0 }

def pi_to_pc (sts : Station) (dim : HorizontalDimensions) : Station :=
  { value := sts.value - dim.tangent, elevation := 0 }

def pi_to_pt (sts : Station) (dim : HorizontalDimensions) : Station :=
  { value := sts.value + dim.tangent, elevation := 0 }

def pt_to_pc (sts : Station) (dim : HorizontalDimensions) : Station :=
  { value := sts.value - dim.curve_length, elevation := 0 }

def pt_to_pi (sts : Station) (dim : HorizontalDimensions) : Station :=
  { value := sts.value - dim.tangent, elevation := 0 }

/-- Rust `HorizontalData::to_stations`. -/
def HorizontalData.to_stations (self : HorizontalData)
    (dimensions : HorizontalDimensions) : Except AsterError HorizontalStations :=
  match self.input_station with
  | none => .error .parseError
  | some v =>
    let starting_station : Station := { value := v, elevation := 0 }
    match self.input_station_method with
    | .PC =>
      .ok { pc := starting_station
            pi := pc_to_pi starting_station dimensions
            pt := pc_to_pt starting_station dimensions }
    | .PI =>
      .ok { pc := pi_to_pc starting_station dimensions
            pi := starting_station
            pt := pi_to_pt starting_station dimensions }
    | .PT =>
      .ok { pc := pt_to_pc starting_station dimensions
            pi := pt_to_pi starting_station dimensions
            pt := starting_station }

/-- Rust `HorizontalData::to_horizontal_curve`. -/
noncomputable def HorizontalData.to_horizontal_curve (self : HorizontalData) :
    Except AsterError HorizontalCurve := do
  let dimensions ← self.to_dimensions
  let stations ← self.to_stations dimensions
  .ok { dimensions := dimensions, stations := stations }

/-! ### Concrete inputs used by witnesses and counterexamples -/

/-- A 90-degree deflection angle with consistent radians/degrees fields. -/
noncomputable def angle90 : Angle :=
  { radians := Real.pi / 2, decimal_degrees := 90 }

/-- Input record: known PI station 0, radius 1, deflection 90 degrees. -/
noncomputable def selfPI90 : HorizontalData :=
  { input_station_method := .PI
    input_build_method := .RadiusCurveAngle
    input_station := some 0
    input_radius := some 1
    input_curve_angle := some angle90
    input_m := some 0
    input_design_speed := some 0
    input_sight_type := .Stopping
    sustained_downgrade := false }

/-- Input record mirroring the repository test `h1`: radius 818.5 with
obstruction offset m = 1000 exceeding the radius. -/
noncomputable def selfH1 : HorizontalData :=
  { input_station_method := .PI
    input_build_method := .RadiusCurveAngle
    input_station := some 1028450
    input_radius := some 818.5
    input_curve_angle := some angle90
    input_m := some 1000
    input_design_speed := some 65
    input_sight_type := .Stopping
    sustained_downgrade := false }

/-- Input record with known PC station 100. -/
noncomputable def dataPC : HorizontalData :=
  { input_station_method := .PC
    input_build_method := .RadiusCurveAngle
    input_station := some 100
    input_radius := some 1
    input_curve_angle := some angle90
    input_m := some 0
    input_design_speed := some 0
    input_sight_type := .Stopping
    sustained_downgrade := false }

/-- Input record with known PT station 200. -/
noncomputable def dataPT : HorizontalData :=
  { input_station_method := .PT
    input_build_method := .RadiusCurveAngle
    input_station := some 200
    input_radius := some 1
    input_curve_angle := some angle90
    input_m := some 0
    input_design_speed := some 0
    input_sight_type := .Stopping
    sustained_downgrade := false }

/-- Input record requesting the unimplemented RadiusTangent build method,
with every other field populated with parseable values. -/
noncomputable def rtData : HorizontalData :=
  { input_station_method := .PI
    input_build_method := .RadiusTangent
    input_station := some 1028450
    input_radius := some 818.5
    input_curve_angle := some angle90
    input_m := some 1000
    input_design_speed := some 65
    input_sight_type := .Stopping
    sustained_downgrade := false }

/-- Concrete solved dimensions used to exercise the station propagator. -/
noncomputable def dims0 : HorizontalDimensions :=
  { radius := 818.5
    curve_length := 3
    tangent := 1
    long_chord := 1
    middle_ordinate := 1
    external := 1
    curve_length_100 := angle90
    curve_angle := angle90
    design_speed := 65
    sight_distance := none }

/-- The station triple `dataPC.to_stations dims0` produces. -/
noncomputable def stsPC : HorizontalStations :=
  { pc := { value := 100, elevation := 0 }
    pi := { value := 100 + dims0.tangent, elevation := 0 }
    pt := { value := 100 + dims0.curve_length, elevation := 0 } }

/-! ### Helper lemmas -/

theorem calc_min_sight_distance_eq (table : SightTable) (design_speed : Int)
    (st : SightType) (sd : Bool) :
    calc_min_sight_distance table design_speed st sd =
      match getEntry table design_speed (sightColumn st) with
      | .panic m => .panic m
      | .ok d => .ok (if sd then d * 1.2 else d) := by
  cases st <;> rfl

theorem HorizontalData.to_dimensions_ok (self : HorizontalData) (R : ℝ) (A : Angle)
    (hb : self.input_build_method = .RadiusCurveAngle)
    (hr : self.input_radius = some R)
    (ha : self.input_curve_angle = some A) :
    self.to_dimensions = .ok
      { radius := R
        curve_length := R * A.decimal_degrees * Real.pi / 180
        tangent := R * Real.tan (A.radians / 2)
        long_chord := 2 * R * Real.sin (A.radians / 2)
        middle_ordinate := R * (1 - Real.cos (A.radians / 2))
        external := R * (1 / Real.cos (A.radians / 2) - 1)
        curve_length_100 :=
          { radians := 5729.6 / R * Real.pi / 180
            decimal_degrees := 5729.6 / R }
        curve_angle := A
        design_speed := self.input_design_speed.getD 0
        sight_distance :=
          (acosF ((R - self.input_m.getD 0) / R)).map
            (fun a => R / 28.65 * a * 180 / Real.pi) } := by
  cases self with
  | mk ism ibm ist irad ica im ids isight sdg =>
    subst hb
    subst hr
    subst ha
    rfl

/-! ### Claim theorems -/

/-- C4: for a loaded table, `calc_min_sight_distance` without the downgrade
flag returns the stored column entry exactly (column 0 for Stopping and
Decision, column 1 for Passing, no interpolation); when the design speed is
absent it panics with the design-speed-not-in-table message (amended from
the claimed recoverable LookupError). -/
theorem calc_min_sight_distance_exact_lookup (table : SightTable)
    (speed : Int) (st : SightType) :
    (∀ row d, List.lookup speed table = some row →
        row[sightColumn st]? = some d →
        calc_min_sight_distance table speed st false = .ok d) ∧
    (List.lookup speed table = none →
        calc_min_sight_distance table speed st false
          = .panic .designSpeedNotInTable) := by
  constructor
  · intro row d hrow hd
    rw [calc_min_sight_distance_eq]
    simp [getEntry, hrow, hd]
  · intro hmiss
    rw [calc_min_sight_distance_eq]
    simp [getEntry, hmiss]

/-- C4 witness: a present speed returns the stored Passing column entry; an
absent speed panics. -/
theorem calc_min_sight_distance_exact_lookup_witness :
    calc_min_sight_distance [(65, [495, 910])] 65 .Passing false = .ok 910 ∧
    calc_min_sight_distance [] 65 .Passing false
      = .panic .designSpeedNotInTable :=
  ⟨(calc_min_sight_distance_exact_lookup [(65, [495, 910])] 65 .Passing).1
     [495, 910] 910 rfl rfl,
   (calc_min_sight_distance_exact_lookup [] 65 .Passing).2 rfl⟩

/-- C4 counterexample: a design speed absent from a loaded table makes
`calc_min_sight_distance` panic (the `.expect` call), not return a
recoverable LookupError value. -/
theorem calc_min_sight_distance_missing_speed_panics :
    calc_min_sight_distance [(65, [495, 910])] 70 .Stopping false
      = .panic .designSpeedNotInTable := rfl

/-- C5: for every sight type, the sustained-downgrade flag multiplies the
selected table entry by exactly 1.2 (unconditionally, regardless of sight
type); without the flag the entry is returned unchanged. -/
theorem calc_min_sight_distance_downgrade_multiplier (table : SightTable)
    (speed : Int) (st : SightType) (row : List ℚ) (d : ℚ)
    (hrow : List.lookup speed table = some row)
    (hd : row[sightColumn st]? = some d) :
    calc_min_sight_distance table speed st true = .ok (1.2 * d) ∧
    calc_min_sight_distance table speed st false = .ok d := by
  constructor <;> rw [calc_min_sight_distance_eq] <;>
    simp [getEntry, hrow, hd, mul_comm]

/-- C5 witness: the Passing entry 910 becomes 1092 under the downgrade flag
and stays 910 without it. -/
theorem calc_min_sight_distance_downgrade_multiplier_witness :
    calc_min_sight_distance [(65, [495, 910])] 65 .Passing true
      = .ok (1.2 * 910) ∧
    calc_min_sight_distance [(65, [495, 910])] 65 .Passing false = .ok 910 :=
  calc_min_sight_distance_downgrade_multiplier [(65, [495, 910])] 65 .Passing
    [495, 910] 910 rfl rfl

/-- C10: a loaded table can contain the requested design speed yet have a
row too short for the selected column: a Passing lookup on a one-entry row
panics with the out-of-bounds index, instead of returning a value or a
typed error. -/
theorem calc_min_sight_distance_short_row_panics :
    calc_min_sight_distance [(65, [495])] 65 .Passing false
      = .panic .indexOutOfBounds := rfl

/-- C7: an input whose build method is RadiusTangent makes `to_dimensions`
(and hence `to_horizontal_curve`) fail with the not-implemented error,
regardless of every other field, never returning dimensions. -/
theorem to_dimensions_radius_tangent_unsupported (self : HorizontalData)
    (h : self.input_build_method = .RadiusTangent) :
    self.to_dimensions = .error .methodNotImplemented ∧
    self.to_horizontal_curve = .error .methodNotImplemented := by
  have h1 : self.to_dimensions = .error .methodNotImplemented := by
    cases self with
    | mk ism ibm ist irad ica im ids isight sdg =>
      subst h
      rfl
  refine ⟨h1, ?_⟩
  unfold HorizontalData.to_horizontal_curve
  rw [h1]
  rfl

/-- C7 witness: the RadiusTangent request with otherwise fully parseable
fields still fails with the not-implemented error. -/
theorem to_dimensions_radius_tangent_unsupported_witness :
    rtData.to_dimensions = .error .methodNotImplemented ∧
    rtData.to_horizontal_curve = .error .methodNotImplemented :=
  to_dimensions_radius_tangent_unsupported rtData rfl

/-- C3: `to_stations` fills the other two stations by the directional
table: known PC gives (s, s + tangent, s + curve_length); known PI gives
(s - tangent, s, s + tangent); known PT gives
(s - curve_length, s - tangent, s). -/
theorem to_stations_directional_table (self : HorizontalData)
    (dims : HorizontalDimensions) (s : ℝ)
    (hs : self.input_station = some s) :
    (self.input_station_method = .PC →
      self.to_stations dims = .ok
        { pc := { value := s, elevation := 0 }
          pi := { value := s + dims.tangent, elevation := 0 }
          pt := { value := s + dims.curve_length, elevation := 0 } }) ∧
    (self.input_station_method = .PI →
      self.to_stations dims = .ok
        { pc := { value := s - dims.tangent, elevation := 0 }
          pi := { value := s, elevation := 0 }
          pt := { value := s + dims.tangent, elevation := 0 } }) ∧
    (self.input_station_method = .PT →
      self.to_stations dims = .ok
        { pc := { value := s - dims.curve_length, elevation := 0 }
          pi := { value := s - dims.tangent, elevation := 0 }
          pt := { value := s, elevation := 0 } }) := by
  cases self with
  | mk ism ibm ist irad ica im ids isight sdg =>
    subst hs
    refine ⟨fun hm => ?_, fun hm => ?_, fun hm => ?_⟩ <;>
      subst hm <;> rfl

/-- C3 witness: the three directional rules evaluated on concrete known
stations 100 (PC), 0 (PI) and 200 (PT). -/
theorem to_stations_directional_table_witness :
    dataPC.to_stations dims0 = .ok
      { pc := { value := 100, elevation := 0 }
        pi := { value := 100 + dims0.tangent, elevation := 0 }
        pt := { value := 100 + dims0.curve_length, elevation := 0 } } ∧
    selfPI90.to_stations dims0 = .ok
      { pc := { value := 0 - dims0.tangent, elevation := 0 }
        pi := { value := 0, elevation := 0 }
        pt := { value := 0 + dims0.tangent, elevation := 0 } } ∧
    dataPT.to_stations dims0 = .ok
      { pc := { value := 200 - dims0.curve_length, elevation := 0 }
        pi := { value := 200 - dims0.tangent, elevation := 0 }
        pt := { value := 200, elevation := 0 } } :=
  ⟨(to_stations_directional_table dataPC dims0 100 rfl).1 rfl,
   (to_stations_directional_table selfPI90 dims0 0 rfl).2.1 rfl,
   (to_stations_directional_table dataPT dims0 200 rfl).2.2 rfl⟩

/-- C9: every station in a triple produced by `to_stations` carries
elevation exactly 0 (elevation derivation is an unimplemented
placeholder). -/
theorem to_stations_elevation_zero (self : HorizontalData)
    (dims : HorizontalDimensions) (sts : HorizontalStations)
    (h : self.to_stations dims = .ok sts) :
    sts.pc.elevation = 0 ∧ sts.pi.elevation = 0 ∧ sts.pt.elevation = 0 := by
  cases self with
  | mk ism ibm ist irad ica im ids isight sdg =>
    cases ist with
    | none => simp [HorizontalData.to_stations] at h
    | some v =>
      cases ism <;>
        simp [HorizontalData.to_stations, pc_to_pi, pc_to_pt, pi_to_pc,
          pi_to_pt, pt_to_pc, pt_to_pi] at h <;>
        subst h <;> exact ⟨rfl, rfl, rfl⟩

/-- C9 witness: the concrete PC-derived triple has elevation 0 at all
three stations. -/
theorem to_stations_elevation_zero_witness :
    stsPC.pc.elevation = 0 ∧ stsPC.pi.elevation = 0 ∧
    stsPC.pt.elevation = 0 :=
  to_stations_elevation_zero dataPC dims0 stsPC rfl

/-- C6 (amended): the triple returned by `to_stations` satisfies, for
known PC: pi - pc = tangent and pt - pc = curve_length; for known PI:
pi - pc = tangent and pt - pi = tangent; for known PT: pt - pi = tangent
and pt - pc = curve_length (exactly, over the idealised reals). -/
theorem to_stations_partial_consistency (self : HorizontalData)
    (dims : HorizontalDimensions) (v : ℝ) (sts : HorizontalStations)
    (hv : self.input_station = some v)
    (h : self.to_stations dims = .ok sts) :
    (self.input_station_method = .PC →
        sts.pi.value - sts.pc.value = dims.tangent ∧
        sts.pt.value - sts.pc.value = dims.curve_length) ∧
    (self.input_station_method = .PI →
        sts.pi.value - sts.pc.value = dims.tangent ∧
        sts.pt.value - sts.pi.value = dims.tangent) ∧
    (self.input_station_method = .PT →
        sts.pt.value - sts.pi.value = dims.tangent ∧
        sts.pt.value - sts.pc.value = dims.curve_length) := by
  cases self with
  | mk ism ibm ist irad ica im ids isight sdg =>
    subst hv
    refine ⟨fun hm => ?_, fun hm => ?_, fun hm => ?_⟩ <;> subst hm <;>
      simp [HorizontalData.to_stations, pc_to_pi, pc_to_pt, pi_to_pc,
        pi_to_pt, pt_to_pc, pt_to_pi] at h <;>
      subst h <;> constructor <;> ring

/-- C6 witness: for the concrete PC-derived triple, pi - pc equals the
tangent and pt - pc equals the curve length. -/
theorem to_stations_partial_consistency_witness :
    stsPC.pi.value - stsPC.pc.value = dims0.tangent ∧
    stsPC.pt.value - stsPC.pc.value = dims0.curve_length :=
  (to_stations_partial_consistency dataPC dims0 100 stsPC rfl rfl).1 rfl

/-- C6 counterexample: for the solved radius-1, 90-degree curve with known
PI station 0, the returned triple has pt - pc = 2 while curve_length is
pi/2, so pt - pc differs from curve_length by far more than the 1e-6
tolerance (and a PI-tag re-derivation cannot reproduce a PC-tag triple). -/
theorem to_stations_pi_tag_breaks_identities :
    (selfPI90.to_horizontal_curve).map
        (fun c => c.stations.pt.value - c.stations.pc.value) = .ok 2 ∧
    (selfPI90.to_horizontal_curve).map
        (fun c => c.dimensions.curve_length) = .ok (Real.pi / 2) ∧
    (2 : ℝ) - Real.pi / 2 > 1 / 1000000 := by
  have h1 : (selfPI90.to_horizontal_curve).map
      (fun c => c.stations.pt.value - c.stations.pc.value)
      = .ok ((0 + 1 * Real.tan (Real.pi / 2 / 2))
          - (0 - 1 * Real.tan (Real.pi / 2 / 2))) := rfl
  have h2 : (selfPI90.to_horizontal_curve).map
      (fun c => c.dimensions.curve_length)
      = .ok (1 * (90 : ℝ) * Real.pi / 180) := rfl
  have htan : Real.tan (Real.pi / 2 / 2) = 1 := by
    rw [show Real.pi / 2 / 2 = Real.pi / 4 by ring, Real.tan_pi_div_four]
  refine ⟨?_, ?_, ?_⟩
  · rw [h1, htan]
    norm_num
  · rw [h2]
    congr 1
    ring
  · have hpi := Real.pi_lt_d2
    norm_num at hpi ⊢
    linarith

/-- C2: for a successfully parsed radius R and deflection angle A (with
consistent radians), `to_dimensions` under RadiusCurveAngle returns
dimensions satisfying exactly the closed-form circular-curve formulas,
and curve_length_100 holds 5729.6 / R degrees with consistent radians. -/
theorem to_dimensions_formulas (self : HorizontalData) (R : ℝ) (A : Angle)
    (hb : self.input_build_method = .RadiusCurveAngle)
    (hr : self.input_radius = some R)
    (ha : self.input_curve_angle = some A)
    (_hA : A.radians = A.decimal_degrees * Real.pi / 180) :
    ∃ d, self.to_dimensions = .ok d ∧
      d.curve_length = R * A.decimal_degrees * Real.pi / 180 ∧
      d.tangent = R * Real.tan (A.radians / 2) ∧
      d.external = R * (1 / Real.cos (A.radians / 2) - 1) ∧
      d.middle_ordinate = R * (1 - Real.cos (A.radians / 2)) ∧
      d.long_chord = 2 * R * Real.sin (A.radians / 2) ∧
      d.curve_length_100.decimal_degrees = 5729.6 / R ∧
      d.curve_length_100.radians = 5729.6 / R * Real.pi / 180 :=
  ⟨_, self.to_dimensions_ok R A hb hr ha, rfl, rfl, rfl, rfl, rfl, rfl, rfl⟩

/-- C2 witness: the formulas instantiated at radius 1 and the consistent
90-degree angle. -/
theorem to_dimensions_formulas_witness :
    angle90.radians = angle90.decimal_degrees * Real.pi / 180 ∧
    (∃ d, selfPI90.to_dimensions = .ok d ∧
      d.curve_length = 1 * angle90.decimal_degrees * Real.pi / 180 ∧
      d.tangent = 1 * Real.tan (angle90.radians / 2) ∧
      d.external = 1 * (1 / Real.cos (angle90.radians / 2) - 1) ∧
      d.middle_ordinate = 1 * (1 - Real.cos (angle90.radians / 2)) ∧
      d.long_chord = 2 * 1 * Real.sin (angle90.radians / 2) ∧
      d.curve_length_100.decimal_degrees = 5729.6 / 1 ∧
      d.curve_length_100.radians = 5729.6 / 1 * Real.pi / 180) :=
  ⟨by simp [angle90]; ring,
   to_dimensions_formulas selfPI90 1 angle90 rfl rfl rfl
     (by simp [angle90]; ring)⟩

/-- C8: for radius R > 0 and a deflection strictly between 0 and 180
degrees (radians consistent), the solved tangent, curve_length,
long_chord, middle_ordinate and external are all strictly positive, and
long_chord < curve_length. -/
theorem to_dimensions_positivity (self : HorizontalData) (R : ℝ) (A : Angle)
    (hb : self.input_build_method = .RadiusCurveAngle)
    (hr : self.input_radius = some R) (hR : 0 < R)
    (ha : self.input_curve_angle = some A)
    (hA : A.radians = A.decimal_degrees * Real.pi / 180)
    (h0 : 0 < A.decimal_degrees) (h180 : A.decimal_degrees < 180) :
    ∃ d, self.to_dimensions = .ok d ∧
      0 < d.tangent ∧ 0 < d.curve_length ∧ 0 < d.long_chord ∧
      0 < d.middle_ordinate ∧ 0 < d.external ∧
      d.long_chord < d.curve_length := by
  have hpi := Real.pi_pos
  have hrad0 : 0 < A.radians := by
    rw [hA]
    positivity
  have hradpi : A.radians < Real.pi := by
    rw [hA]
    rw [div_lt_iff₀ (by norm_num : (0:ℝ) < 180)]
    nlinarith
  have hθ0 : 0 < A.radians / 2 := by linarith
  have hθhalf : A.radians / 2 < Real.pi / 2 := by linarith
  have hθpi : A.radians / 2 < Real.pi := by linarith
  have hcos0 : 0 < Real.cos (A.radians / 2) :=
    Real.cos_pos_of_mem_Ioo ⟨by linarith, hθhalf⟩
  have hcos1 : Real.cos (A.radians / 2) < 1 := by
    have := Real.cos_lt_cos_of_nonneg_of_le_pi le_rfl (by linarith) hθ0
    rwa [Real.cos_zero] at this
  refine ⟨_, self.to_dimensions_ok R A hb hr ha, ?_, ?_, ?_, ?_, ?_, ?_⟩
  · exact mul_pos hR (Real.tan_pos_of_pos_of_lt_pi_div_two hθ0 hθhalf)
  · positivity
  · have := Real.sin_pos_of_pos_of_lt_pi hθ0 hθpi
    positivity
  · have : 0 < 1 - Real.cos (A.radians / 2) := by linarith
    positivity
  · have h1 : 1 < 1 / Real.cos (A.radians / 2) :=
      one_lt_one_div hcos0 hcos1
    have : 0 < 1 / Real.cos (A.radians / 2) - 1 := by linarith
    positivity
  · have hsin : Real.sin (A.radians / 2) < A.radians / 2 :=
      Real.sin_lt hθ0
    have hcl : R * A.decimal_degrees * Real.pi / 180
        = 2 * R * (A.radians / 2) := by
      rw [hA]
      ring
    show 2 * R * Real.sin (A.radians / 2)
        < R * A.decimal_degrees * Real.pi / 180
    rw [hcl]
    have h2R : 0 < 2 * R := by linarith
    exact (mul_lt_mul_left h2R).2 hsin

/-- C8 witness: the positivity bundle at radius 1 and the consistent
90-degree deflection. -/
theorem to_dimensions_positivity_witness :
    (0:ℝ) < 1 ∧ (0:ℝ) < angle90.decimal_degrees ∧
    angle90.decimal_degrees < 180 ∧
    (∃ d, selfPI90.to_dimensions = .ok d ∧
      0 < d.tangent ∧ 0 < d.curve_length ∧ 0 < d.long_chord ∧
      0 < d.middle_ordinate ∧ 0 < d.external ∧
      d.long_chord < d.curve_length) :=
  ⟨one_pos, by simp [angle90], by simp [angle90]; norm_num,
   to_dimensions_positivity selfPI90 1 angle90 rfl rfl one_pos rfl
     (by simp [angle90]; ring) (by simp [angle90]) (by simp [angle90]; norm_num)⟩

/-- C1 (amended): `to_dimensions` performs no domain check on the
obstruction offset: for every parsed radius R > 0 and offset m it returns
Ok, never a GeometryError; the sight_distance is NaN exactly when m < 0 or
m > 2R (the acos argument leaves [-1, 1] at 2R, not at R); the boundary
m = R still succeeds with the non-NaN value R / 28.65 * (pi/2) * 180 / pi. -/
theorem to_dimensions_no_offset_check (self : HorizontalData) (R m : ℝ)
    (A : Angle)
    (hb : self.input_build_method = .RadiusCurveAngle)
    (hr : self.input_radius = some R) (hR : 0 < R)
    (ha : self.input_curve_angle = some A)
    (hm : self.input_m = some m) :
    ∃ d, self.to_dimensions = .ok d ∧
      (d.sight_distance = none ↔ 2 * R < m ∨ m < 0) ∧
      (m = R → d.sight_distance
          = some (R / 28.65 * (Real.pi / 2) * 180 / Real.pi)) := by
  refine ⟨_, self.to_dimensions_ok R A hb hr ha, ?_, ?_⟩
  · dsimp only
    rw [hm, Option.getD_some, Option.map_eq_none']
    unfold acosF
    split_ifs with hif
    · refine iff_of_false (by simp) ?_
      obtain ⟨hl, hu⟩ := hif
      have h1 : -1 * R ≤ R - m := (le_div_iff₀ hR).1 hl
      have h2 : R - m ≤ R := (div_le_one hR).1 hu
      rintro (h | h) <;> linarith
    · refine iff_of_true rfl ?_
      rcases not_and_or.1 hif with h | h
      · have h1 : R - m < -1 * R := (div_lt_iff₀ hR).1 (not_le.1 h)
        left
        linarith
      · have h1 : 1 * R < R - m := (lt_div_iff₀ hR).1 (not_le.1 h)
        right
        linarith
  · intro hmR
    dsimp only
    rw [hm, Option.getD_some, hmR, sub_self, zero_div]
    unfold acosF
    rw [if_pos (⟨by norm_num, by norm_num⟩ : (-1:ℝ) ≤ 0 ∧ (0:ℝ) ≤ 1)]
    rw [Option.map_some', Real.arccos_zero]

/-- C1 witness: the no-domain-check behaviour at radius 818.5 with
offset 1000. -/
theorem to_dimensions_no_offset_check_witness :
    (0:ℝ) < 818.5 ∧
    (∃ d, selfH1.to_dimensions = .ok d ∧
      (d.sight_distance = none ↔ 2 * (818.5:ℝ) < 1000 ∨ (1000:ℝ) < 0) ∧
      ((1000:ℝ) = 818.5 → d.sight_distance
          = some ((818.5:ℝ) / 28.65 * (Real.pi / 2) * 180 / Real.pi))) :=
  ⟨by norm_num,
   to_dimensions_no_offset_check selfH1 818.5 1000 angle90 rfl rfl
     (by norm_num) rfl rfl⟩

/-- C1 counterexample: at the repository test values radius 818.5 and
obstruction offset 1000 (offset exceeding the radius), `to_dimensions`
does not fail with a GeometryError: it returns Ok, and the sight_distance
is even a well-defined number (acos of -181.5/818.5), not NaN. -/
theorem to_dimensions_accepts_offset_beyond_radius :
    (0:ℝ) < 818.5 ∧ (818.5:ℝ) < 1000 ∧
    (selfH1.to_dimensions).map (fun d => d.sight_distance.isSome)
      = .ok true := by
  refine ⟨by norm_num, by norm_num, ?_⟩
  rw [HorizontalData.to_dimensions_ok selfH1 818.5 angle90 rfl rfl rfl]
  have hm' : selfH1.input_m = some 1000 := rfl
  rw [hm', Option.getD_some]
  have hcond : (-1:ℝ) ≤ ((818.5:ℝ) - 1000) / 818.5 ∧
      ((818.5:ℝ) - 1000) / 818.5 ≤ 1 := by
    constructor <;> norm_num
  have hacos : acosF (((818.5:ℝ) - 1000) / 818.5)
      = some (Real.arccos (((818.5:ℝ) - 1000) / 818.5)) := by
    unfold acosF
    rw [if_pos hcond]
  rw [hacos, Option.map_some']
  rfl

end Aster
